import Mathlib

/-!
Verification of the topology/feature-classification and discovery logic of the
PowerTag Link Gateway integration.

Shallow embedding of `custom_components/powertag_gateway/entity_base.py` and
`custom_components/powertag_gateway/sensor.py`.  The enumerations `Phase`,
`LineVoltage`, `PhaseSequence` and `ProductType`, and the `SchneiderModbus`
client facade, are defined in `schneider_modbus.py`, which is not part of the
available sources; they are modelled from the spec where noted.
-/

/-- Modelled from the spec: the `Phase` enumeration of `schneider_modbus.py`
(not under the available sources) identifying the individual conductors A, B, C. -/
inductive Phase where
  | A
  | B
  | C
deriving DecidableEq

/-- Modelled from the spec: the `LineVoltage` enumeration of
`schneider_modbus.py` (not under the available sources): line-to-neutral pairs
A-N, B-N, C-N and line-to-line pairs A-B, B-C, C-A. -/
inductive LineVoltage where
  | A_N
  | B_N
  | C_N
  | A_B
  | B_C
  | C_A
deriving DecidableEq

/-- Modelled from the spec: the `PhaseSequence` enumeration of
`schneider_modbus.py` (not under the available sources): single phase A/B/C
alone, one of the six orderings of three phases, or invalid/unknown.  These ten
members are exactly the keys of the lookup table in `phase_sequence_to_phases`. -/
inductive PhaseSequence where
  | A
  | B
  | C
  | ABC
  | ACB
  | BAC
  | BCA
  | CAB
  | CBA
  | INVALID
deriving DecidableEq

/-- Modelled from the spec: the `ProductType` enumeration of
`schneider_modbus.py` (not under the available sources): the closed enumeration
of all recognized meter models plus the fixed set of non-metering accessories.
Its members are exactly the product types referenced by the feature-class
membership tables and the accessory exclusion list in `entity_base.py`. -/
inductive ProductType where
  | A9MEM1520
  | A9MEM1521
  | A9MEM1522
  | A9MEM1540
  | A9MEM1541
  | A9MEM1542
  | A9MEM1543
  | A9MEM1560
  | A9MEM1561
  | A9MEM1562
  | A9MEM1563
  | A9MEM1564
  | A9MEM1570
  | A9MEM1571
  | A9MEM1572
  | A9MEM1573
  | A9MEM1574
  | A9MEM1580
  | LV434020
  | LV434021
  | LV434022
  | LV434023
  | A9MEM1590
  | A9MEM1591
  | A9MEM1592
  | A9MEM1593
  | SMT10020
  | A9XMWRD
  | A9XMC2D3
  | A9XMC1D3
deriving DecidableEq

/-- `entity_base.FeatureClass`: enumeration grouping product types into
electrical topology families. -/
inductive FeatureClass where
  | A1
  | A2
  | P1
  | F1
  | F2
  | F3
  | FL
  | MV
  | M1
  | M2
  | M3
  | R1
deriving DecidableEq

/-- The `value` of each `FeatureClass` member: its list of product types,
transcribed from the class body of `entity_base.FeatureClass`. -/
def FeatureClass.value : FeatureClass → List ProductType
  | .A1 => [.A9MEM1520, .A9MEM1521, .A9MEM1522, .A9MEM1541, .A9MEM1542]
  | .A2 => [.A9MEM1540, .A9MEM1543]
  | .P1 => [.A9MEM1561, .A9MEM1562, .A9MEM1563, .A9MEM1571, .A9MEM1572]
  | .F1 => [.A9MEM1560, .A9MEM1570]
  | .F2 => [.A9MEM1573]
  | .F3 => [.A9MEM1564, .A9MEM1574]
  | .FL => [.A9MEM1580]
  | .MV => [.LV434020]
  | .M1 => [.LV434021]
  | .M2 => [.LV434022]
  | .M3 => [.LV434023]
  | .R1 => [.A9MEM1590, .A9MEM1591, .A9MEM1592, .A9MEM1593]

/-- The members of `FeatureClass` in Python enumeration (definition) order,
as iterated by `for fc in FeatureClass`. -/
def featureClassList : List FeatureClass :=
  [.A1, .A2, .P1, .F1, .F2, .F3, .FL, .MV, .M1, .M2, .M3, .R1]

/-- The list comprehension `[fc for fc in FeatureClass if product_type in fc.value]`
shared by `has_neutral`, `is_m` and `is_r` in `entity_base.py`. -/
def feature_class_of (product_type : ProductType) : List FeatureClass :=
  featureClassList.filter (fun fc => fc.value.contains product_type)

/-- `entity_base.is_powertag`. -/
def is_powertag (product_type : ProductType) : Bool :=
  !([ProductType.SMT10020, ProductType.A9XMWRD, ProductType.A9XMC2D3,
     ProductType.A9XMC1D3].contains product_type)

/-- `entity_base.has_neutral`.  Taking element `[0]` of the comprehension raises
`IndexError` in Python when the filter result is empty; that failure is embedded
as `none`. -/
def has_neutral (product_type : ProductType) : Option Bool :=
  match feature_class_of product_type with
  | [] => none
  | feature_class :: _ =>
    some (!([FeatureClass.A2, FeatureClass.F2, FeatureClass.M2].contains feature_class))

/-- `entity_base.is_m`, with the empty-filter failure embedded as `none`. -/
def is_m (product_type : ProductType) : Option Bool :=
  match feature_class_of product_type with
  | [] => none
  | feature_class :: _ =>
    some ([FeatureClass.M1, FeatureClass.M2, FeatureClass.M3,
           FeatureClass.MV].contains feature_class)

/-- `entity_base.is_r`, with the empty-filter failure embedded as `none`. -/
def is_r (product_type : ProductType) : Option Bool :=
  match feature_class_of product_type with
  | [] => none
  | feature_class :: _ =>
    some ([FeatureClass.FL, FeatureClass.R1].contains feature_class)

/-- `entity_base.phase_sequence_to_phases`: the dictionary lookup, total over
the ten `PhaseSequence` members. -/
def phase_sequence_to_phases : PhaseSequence → List Phase
  | .A => [.A]
  | .B => [.B]
  | .C => [.C]
  | .ABC => [.A, .B, .C]
  | .ACB => [.A, .C, .B]
  | .BAC => [.B, .A, .C]
  | .BCA => [.B, .C, .A]
  | .CAB => [.C, .A, .B]
  | .CBA => [.C, .B, .A]
  | .INVALID => []

/-- `entity_base.phase_sequence_to_line_voltages`. -/
def phase_sequence_to_line_voltages (phase_sequence : PhaseSequence)
    (neutral : Bool) : List LineVoltage :=
  if phase_sequence = .INVALID then
    []
  else if phase_sequence = .A ∨ phase_sequence = .B ∨ phase_sequence = .C then
    if !neutral then
      []
    else
      match phase_sequence with
      | .A => [.A_N]
      | .B => [.B_N]
      | .C => [.C_N]
      | _ => []
  else
    if neutral then [.A_N, .B_N, .C_N] else [.A_B, .B_C, .C_A]

/-- Modelled from the spec: the `SchneiderModbus` domain-client facade of
`schneider_modbus.py` (not under the available sources), restricted to the
accessors that `entity_base.py` and `sensor.py` call.  Each accessor is a
function of the tag topology index; `modbus_address_of_node` is the discovery
accessor returning the topology index of the tag at a position, or `none` once
positions are exhausted.  `tag_usage` stands for `tag_usage(i).name`. -/
structure SchneiderModbus where
  modbus_address_of_node : Nat → Option Nat
  tag_phase_sequence : Nat → PhaseSequence
  tag_product_type : Nat → ProductType
  tag_radio_lqi_gateway : Nat → Option Nat
  tag_serial_number : Nat → String
  tag_hardware_revision : Nat → String
  tag_firmware_revision : Nat → String
  tag_vendor_name : Nat → String
  tag_product_model : Nat → String
  tag_name : Nat → String
  tag_usage : Nat → String

/-- The `TAG_DOMAIN` constant from `const.py` (not under the available
sources); its concrete value is immaterial to every claim. -/
def TAG_DOMAIN : String := "powertag"

/-- The fields of the `DeviceInfo` dictionary built by
`entity_base.tag_device_info`; `suggested_area` is optional (the key is added
only for reachable tags). -/
structure DeviceInfo where
  configuration_url : String
  via_device : String × String
  identifiers : String × String
  serial_number : String
  hw_version : String
  sw_version : String
  manufacturer : String
  model : String
  name : String
  suggested_area : Option String
deriving DecidableEq

/-- `entity_base.tag_device_info`: builds the device-info record for a tag;
the `suggested_area` key is added only when the tag is reachable
(`tag_radio_lqi_gateway` returned a value).  The debug-logging block reads
further diagnostics but adds no field. -/
def tag_device_info (client : SchneiderModbus) (modbus_index : Nat)
    (presentation_url : String) (gateway_identification : String × String) :
    DeviceInfo :=
  let is_unreachable := (client.tag_radio_lqi_gateway modbus_index).isNone
  let serial_number := client.tag_serial_number modbus_index
  { configuration_url := presentation_url
    via_device := gateway_identification
    identifiers := (TAG_DOMAIN, serial_number)
    serial_number := serial_number
    hw_version := client.tag_hardware_revision modbus_index
    sw_version := client.tag_firmware_revision modbus_index
    manufacturer := client.tag_vendor_name modbus_index
    model := client.tag_product_model modbus_index
    name := client.tag_name modbus_index
    suggested_area :=
      if is_unreachable then none else some (client.tag_usage modbus_index) }

/-- The sensor entities registered by `sensor.async_setup_entry`, identified by
their class and constructor arguments (tag modbus address, and phase or line
voltage where applicable).  `resetEnergy` stands for the PowerTagPartialEnergy
class. -/
inductive Entity where
  | gatewayTime
  | apparentPower (addr : Nat)
  | activePower (addr : Nat)
  | demandActivePower (addr : Nat)
  | totalEnergy (addr : Nat)
  | resetEnergy (addr : Nat)
  | powerFactor (addr : Nat)
  | rssiTag (addr : Nat)
  | rssiGateway (addr : Nat)
  | lqiTag (addr : Nat)
  | lqiGateway (addr : Nat)
  | perTag (addr : Nat)
  | perGateway (addr : Nat)
  | current (addr : Nat) (phase : Phase)
  | activePowerPerPhase (addr : Nat) (phase : Phase)
  | voltage (addr : Nat) (line : LineVoltage)
deriving DecidableEq

/-- The twelve per-tag entities registered unconditionally for every discovered
tag by the `entities.extend([...])` call in `sensor.async_setup_entry`. -/
def fixedTagEntities (addr : Nat) : List Entity :=
  [.apparentPower addr, .activePower addr, .demandActivePower addr,
   .totalEnergy addr, .resetEnergy addr, .powerFactor addr,
   .rssiTag addr, .rssiGateway addr, .lqiTag addr, .lqiGateway addr,
   .perTag addr, .perGateway addr]

/-- The per-tag body of the discovery loop in `sensor.async_setup_entry`: the
twelve fixed entities, then per phase a current entity plus (only with neutral)
an active-power-per-phase entity, then one voltage entity per line voltage.
`none` embeds the `IndexError` that `has_neutral` raises for a product type
outside every feature class. -/
def tagEntities (client : SchneiderModbus) (modbus_address : Nat) :
    Option (List Entity) :=
  match has_neutral (client.tag_product_type modbus_address) with
  | none => none
  | some neutral =>
    let phase_sequence := client.tag_phase_sequence modbus_address
    some (fixedTagEntities modbus_address
      ++ (phase_sequence_to_phases phase_sequence).flatMap (fun phase =>
            Entity.current modbus_address phase ::
              (if neutral then [Entity.activePowerPerPhase modbus_address phase]
               else []))
      ++ (phase_sequence_to_line_voltages phase_sequence neutral).map
            (Entity.voltage modbus_address))

/-- The discovery loop `for i in range(1, 100)` of `sensor.async_setup_entry`,
parameterized by the current position and remaining fuel (99 at the top call).
Returns the list of positions passed to `modbus_address_of_node`, paired with
the tags registered: for each discovered tag its modbus address and entity
list.  A failing per-tag `has_neutral` lookup raises `IndexError` in Python,
which aborts the `for` loop: the failing tag's position has been probed, no
later position is probed, and nothing is registered (`none`). -/
def setupLoop (client : SchneiderModbus) :
    Nat → Nat → List Nat × Option (List (Nat × List Entity))
  | _, 0 => ([], some [])
  | i, fuel + 1 =>
    match client.modbus_address_of_node i with
    | none => ([i], some [])
    | some modbus_address =>
      match tagEntities client modbus_address with
      | none => ([i], none)
      | some es =>
        let rest := setupLoop client (i + 1) fuel
        (i :: rest.1, rest.2.map (fun r => (modbus_address, es) :: r))

/-- `sensor.async_setup_entry` restricted to what it registers: the gateway
time entity followed by every discovered tag's entities. -/
def async_setup_entry (client : SchneiderModbus) : Option (List Entity) :=
  (setupLoop client 1 99).2.map
    (fun tags => Entity.gatewayTime :: tags.flatMap (fun t => t.2))

/-- A concrete client with a tag at every position; its tags are three-phase
`A9MEM1520` meters whose gateway-side link quality is unavailable. -/
def sampleClient : SchneiderModbus where
  modbus_address_of_node := fun _ => some 1
  tag_phase_sequence := fun _ => PhaseSequence.ABC
  tag_product_type := fun _ => ProductType.A9MEM1520
  tag_radio_lqi_gateway := fun _ => none
  tag_serial_number := fun _ => "sn"
  tag_hardware_revision := fun _ => "hw"
  tag_firmware_revision := fun _ => "fw"
  tag_vendor_name := fun _ => "Schneider Electric"
  tag_product_model := fun _ => "A9MEM1520"
  tag_name := fun _ => "tag"
  tag_usage := fun _ => "OTHER"

/-- A concrete client reporting no device at any position. -/
def emptyClient : SchneiderModbus where
  modbus_address_of_node := fun _ => none
  tag_phase_sequence := fun _ => PhaseSequence.ABC
  tag_product_type := fun _ => ProductType.A9MEM1520
  tag_radio_lqi_gateway := fun _ => none
  tag_serial_number := fun _ => "sn"
  tag_hardware_revision := fun _ => "hw"
  tag_firmware_revision := fun _ => "fw"
  tag_vendor_name := fun _ => "Schneider Electric"
  tag_product_model := fun _ => "A9MEM1520"
  tag_name := fun _ => "tag"
  tag_usage := fun _ => "OTHER"

/-- A concrete client with tags at positions 1 and 2 (addresses 11 and 12)
and a vacancy at position 3, whose tags carry the accessory product type
`SMT10020`, which lies outside every feature class. -/
def accessoryClient : SchneiderModbus where
  modbus_address_of_node := fun i => if i < 3 then some (i + 10) else none
  tag_phase_sequence := fun _ => PhaseSequence.ABC
  tag_product_type := fun _ => ProductType.SMT10020
  tag_radio_lqi_gateway := fun _ => none
  tag_serial_number := fun _ => "sn"
  tag_hardware_revision := fun _ => "hw"
  tag_firmware_revision := fun _ => "fw"
  tag_vendor_name := fun _ => "Schneider Electric"
  tag_product_model := fun _ => "SMT10020"
  tag_name := fun _ => "tag"
  tag_usage := fun _ => "OTHER"

/-- A concrete client with one genuine PowerTag at position 1 (address 7) and
a vacancy at position 2. -/
def oneTagClient : SchneiderModbus where
  modbus_address_of_node := fun i => if i = 1 then some 7 else none
  tag_phase_sequence := fun _ => PhaseSequence.ABC
  tag_product_type := fun _ => ProductType.A9MEM1520
  tag_radio_lqi_gateway := fun _ => none
  tag_serial_number := fun _ => "sn"
  tag_hardware_revision := fun _ => "hw"
  tag_firmware_revision := fun _ => "fw"
  tag_vendor_name := fun _ => "Schneider Electric"
  tag_product_model := fun _ => "A9MEM1520"
  tag_name := fun _ => "tag"
  tag_usage := fun _ => "OTHER"

/-- Claim C1 (counterexample): for the accessory product type `SMT10020` the
feature-class filter is empty, so the lookup does not yield exactly one class
and the `[0]` error branch of `has_neutral`, `is_m` and `is_r` is reached. -/
theorem c1_lookup_counterexample :
    feature_class_of ProductType.SMT10020 = [] ∧
    (feature_class_of ProductType.SMT10020).length ≠ 1 ∧
    has_neutral ProductType.SMT10020 = none ∧
    is_m ProductType.SMT10020 = none ∧
    is_r ProductType.SMT10020 = none := by
  decide

/-- Claim C1 (amended): the feature-class lookup yields exactly one class for
every product type that `is_powertag` accepts; for the four excluded accessory
types the filter is empty, so the error branch is reached exactly there. -/
theorem c1_lookup_total_on_powertags :
    ∀ product_type : ProductType,
      (is_powertag product_type = true →
        (feature_class_of product_type).length = 1) ∧
      (is_powertag product_type = false →
        feature_class_of product_type = []) := by
  intro product_type
  constructor <;> intro h <;> revert h <;> cases product_type <;> decide

/-- Claim C1 (witness): the lookup yields exactly one class for `A9MEM1520`. -/
theorem c1_lookup_total_on_powertags_witness :
    (feature_class_of ProductType.A9MEM1520).length = 1 :=
  (c1_lookup_total_on_powertags ProductType.A9MEM1520).1 (by decide)

/-- Claim C2: `phase_sequence_to_phases` maps each single-phase sequence to its
one phase, each of the six three-phase orderings XYZ to `[X, Y, Z]` in that
order, and `INVALID` to the empty list. -/
theorem c2_phase_sequence_to_phases_table :
    phase_sequence_to_phases PhaseSequence.A = [Phase.A] ∧
    phase_sequence_to_phases PhaseSequence.B = [Phase.B] ∧
    phase_sequence_to_phases PhaseSequence.C = [Phase.C] ∧
    phase_sequence_to_phases PhaseSequence.ABC = [Phase.A, Phase.B, Phase.C] ∧
    phase_sequence_to_phases PhaseSequence.ACB = [Phase.A, Phase.C, Phase.B] ∧
    phase_sequence_to_phases PhaseSequence.BAC = [Phase.B, Phase.A, Phase.C] ∧
    phase_sequence_to_phases PhaseSequence.BCA = [Phase.B, Phase.C, Phase.A] ∧
    phase_sequence_to_phases PhaseSequence.CAB = [Phase.C, Phase.A, Phase.B] ∧
    phase_sequence_to_phases PhaseSequence.CBA = [Phase.C, Phase.B, Phase.A] ∧
    phase_sequence_to_phases PhaseSequence.INVALID = [] := by
  decide

/-- Claim C3: `phase_sequence_to_line_voltages` returns the one line-to-neutral
voltage for a single-phase sequence with neutral, the empty list for a
single-phase sequence without neutral, `[A_N, B_N, C_N]` (with neutral) or
`[A_B, B_C, C_A]` (without) for every three-phase sequence, and the empty list
for `INVALID` regardless of the neutral flag. -/
theorem c3_phase_sequence_to_line_voltages_table :
    (∀ b : Bool, phase_sequence_to_line_voltages PhaseSequence.INVALID b = []) ∧
    phase_sequence_to_line_voltages PhaseSequence.A true = [LineVoltage.A_N] ∧
    phase_sequence_to_line_voltages PhaseSequence.B true = [LineVoltage.B_N] ∧
    phase_sequence_to_line_voltages PhaseSequence.C true = [LineVoltage.C_N] ∧
    phase_sequence_to_line_voltages PhaseSequence.A false = [] ∧
    phase_sequence_to_line_voltages PhaseSequence.B false = [] ∧
    phase_sequence_to_line_voltages PhaseSequence.C false = [] ∧
    (∀ seq : PhaseSequence,
      seq = PhaseSequence.ABC ∨ seq = PhaseSequence.ACB ∨
      seq = PhaseSequence.BAC ∨ seq = PhaseSequence.BCA ∨
      seq = PhaseSequence.CAB ∨ seq = PhaseSequence.CBA →
        phase_sequence_to_line_voltages seq true =
          [LineVoltage.A_N, LineVoltage.B_N, LineVoltage.C_N] ∧
        phase_sequence_to_line_voltages seq false =
          [LineVoltage.A_B, LineVoltage.B_C, LineVoltage.C_A]) := by
  refine ⟨fun b => by cases b <;> rfl, rfl, rfl, rfl, rfl, rfl, rfl, ?_⟩
  intro seq h
  rcases h with h | h | h | h | h | h <;> subst h <;> exact ⟨rfl, rfl⟩

/-- Claim C3 (witness): the three-phase clause instantiated at `ABC`. -/
theorem c3_phase_sequence_to_line_voltages_table_witness :
    phase_sequence_to_line_voltages PhaseSequence.ABC true =
      [LineVoltage.A_N, LineVoltage.B_N, LineVoltage.C_N] :=
  (c3_phase_sequence_to_line_voltages_table.2.2.2.2.2.2.2 PhaseSequence.ABC
    (Or.inl rfl)).1

/-- Claim C5: `tag_device_info` treats a tag as unreachable exactly when
`tag_radio_lqi_gateway` returns no value; an unreachable tag's record omits
`suggested_area` but still carries serial number, hardware and firmware
revision, vendor, model and name from the client. -/
theorem c5_tag_device_info_unreachable :
    ∀ (client : SchneiderModbus) (i : Nat) (url : String)
      (gid : String × String),
      ((tag_device_info client i url gid).suggested_area = none ↔
        client.tag_radio_lqi_gateway i = none) ∧
      (client.tag_radio_lqi_gateway i = none →
        (tag_device_info client i url gid).serial_number =
          client.tag_serial_number i ∧
        (tag_device_info client i url gid).hw_version =
          client.tag_hardware_revision i ∧
        (tag_device_info client i url gid).sw_version =
          client.tag_firmware_revision i ∧
        (tag_device_info client i url gid).manufacturer =
          client.tag_vendor_name i ∧
        (tag_device_info client i url gid).model =
          client.tag_product_model i ∧
        (tag_device_info client i url gid).name = client.tag_name i) := by
  intro client i url gid
  cases h : client.tag_radio_lqi_gateway i <;>
    simp [tag_device_info, h]

/-- Claim C5 (witness): an unreachable tag of the sample client still carries
its serial number. -/
theorem c5_tag_device_info_unreachable_witness :
    (tag_device_info sampleClient 1 "http://gw" ("d", "s")).serial_number =
      sampleClient.tag_serial_number 1 :=
  ((c5_tag_device_info_unreachable sampleClient 1 "http://gw" ("d", "s")).2
    rfl).1

/-- Claim C6: `is_powertag` rejects exactly the four accessory product types
`SMT10020`, `A9XMWRD`, `A9XMC2D3` and `A9XMC1D3`, and accepts every other
product type. -/
theorem c6_is_powertag_excludes_accessories :
    ∀ product_type : ProductType,
      is_powertag product_type = false ↔
        (product_type = ProductType.SMT10020 ∨
         product_type = ProductType.A9XMWRD ∨
         product_type = ProductType.A9XMC2D3 ∨
         product_type = ProductType.A9XMC1D3) := by
  intro product_type
  cases product_type <;> decide

/-- Claim C7: `has_neutral`, `is_m` and `is_r` depend only on the feature
class: two product types resolving to the same unique feature class get the
same answers from all three functions. -/
theorem c7_classification_depends_only_on_feature_class :
    ∀ (pt1 pt2 : ProductType) (fc : FeatureClass),
      feature_class_of pt1 = [fc] → feature_class_of pt2 = [fc] →
      has_neutral pt1 = has_neutral pt2 ∧
      is_m pt1 = is_m pt2 ∧
      is_r pt1 = is_r pt2 := by
  intro pt1 pt2 fc h1 h2
  simp [has_neutral, is_m, is_r, h1, h2]

/-- Claim C7 (witness): `A9MEM1520` and `A9MEM1541` share feature class `A1`
and agree on `has_neutral`. -/
theorem c7_classification_depends_only_on_feature_class_witness :
    has_neutral ProductType.A9MEM1520 = has_neutral ProductType.A9MEM1541 :=
  (c7_classification_depends_only_on_feature_class ProductType.A9MEM1520
    ProductType.A9MEM1541 FeatureClass.A1 (by decide) (by decide)).1

/-- Claim C9: with neutral present, the voltage list and the phase list of any
phase sequence have the same length. -/
theorem c9_line_voltages_match_phases_with_neutral :
    ∀ seq : PhaseSequence,
      (phase_sequence_to_line_voltages seq true).length =
        (phase_sequence_to_phases seq).length := by
  intro seq
  cases seq <;> rfl

/-- Membership of a current entity in the per-phase block of the discovery
loop: a current entity for phase `p` is emitted exactly when `p` is in the
phase list, regardless of the neutral flag. -/
theorem mem_phase_block_current (addr : Nat) (p : Phase) (neutral : Bool)
    (l : List Phase) :
    Entity.current addr p ∈ l.flatMap (fun phase =>
        Entity.current addr phase ::
          (if neutral then [Entity.activePowerPerPhase addr phase] else [])) ↔
      p ∈ l := by
  induction l with
  | nil => simp
  | cons q t ih => cases neutral <;> simp [ih]

/-- Membership of an active-power-per-phase entity in the per-phase block of
the discovery loop: it is emitted exactly when the neutral flag is set and the
phase is in the phase list. -/
theorem mem_phase_block_appp (addr : Nat) (p : Phase) (neutral : Bool)
    (l : List Phase) :
    Entity.activePowerPerPhase addr p ∈ l.flatMap (fun phase =>
        Entity.current addr phase ::
          (if neutral then [Entity.activePowerPerPhase addr phase] else [])) ↔
      (neutral = true ∧ p ∈ l) := by
  induction l with
  | nil => simp
  | cons q t ih => cases neutral <;> simp [ih]

/-- Claim C8: for a discovered tag, one current entity is registered per phase
of its phase sequence regardless of neutral presence, while an
active-power-per-phase entity is registered for a phase exactly when the
product type has a neutral. -/
theorem c8_per_phase_entities :
    ∀ (client : SchneiderModbus) (addr : Nat) (es : List Entity),
      tagEntities client addr = some es →
      ∀ p : Phase,
        (Entity.current addr p ∈ es ↔
          p ∈ phase_sequence_to_phases (client.tag_phase_sequence addr)) ∧
        (Entity.activePowerPerPhase addr p ∈ es ↔
          (has_neutral (client.tag_product_type addr) = some true ∧
           p ∈ phase_sequence_to_phases (client.tag_phase_sequence addr))) := by
  intro client addr es h p
  cases hn : has_neutral (client.tag_product_type addr) with
  | none => simp [tagEntities, hn] at h
  | some neutral =>
    simp [tagEntities, hn] at h
    subst h
    constructor
    · simp [fixedTagEntities, List.mem_append, mem_phase_block_current]
    · simp [fixedTagEntities, List.mem_append, mem_phase_block_appp, hn]
      tauto

/-- Claim C8 (witness): for the sample client's three-phase tag, the current
entity for phase A is registered exactly because A is in the phase list. -/
theorem c8_per_phase_entities_witness :
    Entity.current 1 Phase.A ∈ (tagEntities sampleClient 1).getD [] ↔
      Phase.A ∈ phase_sequence_to_phases (sampleClient.tag_phase_sequence 1) :=
  ((c8_per_phase_entities sampleClient 1 ((tagEntities sampleClient 1).getD [])
    (by rfl)) Phase.A).1

/-- Bounds on the probed positions of the discovery loop: starting at `i` with
`fuel` remaining iterations, at most `fuel` positions are queried, all in
`[i, i + fuel)`. -/
theorem setupLoop_probed_bounds (client : SchneiderModbus) :
    ∀ fuel i : Nat,
      (setupLoop client i fuel).1.length ≤ fuel ∧
      ∀ j, j ∈ (setupLoop client i fuel).1 → i ≤ j ∧ j < i + fuel := by
  intro fuel
  induction fuel with
  | zero => intro i; simp [setupLoop]
  | succ fuel ih =>
    intro i
    cases h : client.modbus_address_of_node i with
    | none =>
      simp [setupLoop, h]
    | some a =>
      cases hte : tagEntities client a with
      | none => simp [setupLoop, h, hte]
      | some es =>
        obtain ⟨hl, hm⟩ := ih (i + 1)
        simp only [setupLoop, h, hte, List.length_cons, List.mem_cons]
        refine ⟨by omega, ?_⟩
        rintro j (rfl | hj)
        · omega
        · have := hm j hj
          omega

/-- The discovery loop on a gateway whose first vacant position is `k`:
starting at `i ≤ k` with enough fuel, and with every occupied position
carrying a tag whose product type resolves to a feature class, it probes
exactly positions `i, …, k` in order and registers one tag per occupied
position `i, …, k - 1`, carrying that position's modbus address. -/
theorem setupLoop_discovery (client : SchneiderModbus) :
    ∀ fuel i k : Nat, i ≤ k → k < i + fuel →
      (∀ j, i ≤ j → j < k →
        (client.modbus_address_of_node j).isSome = true) →
      client.modbus_address_of_node k = none →
      (∀ j a, i ≤ j → j < k → client.modbus_address_of_node j = some a →
        (has_neutral (client.tag_product_type a)).isSome = true) →
      (setupLoop client i fuel).1 = List.range' i (k - i + 1) ∧
      ∃ l, (setupLoop client i fuel).2 = some l ∧
        l.map Prod.fst =
          (List.range' i (k - i)).filterMap client.modbus_address_of_node ∧
        l.length = k - i := by
  intro fuel
  induction fuel with
  | zero => intro i k h1 h2; omega
  | succ fuel ih =>
    intro i k hik hlt hsome hnone hclass
    rcases Nat.eq_or_lt_of_le hik with rfl | hik2
    · refine ⟨by simp [setupLoop, hnone], [], by simp [setupLoop, hnone],
        by simp, by simp⟩
    · have hs := hsome i (Nat.le_refl i) hik2
      obtain ⟨a, ha⟩ := Option.isSome_iff_exists.mp hs
      have hcn := hclass i a (Nat.le_refl i) hik2 ha
      obtain ⟨neutral, hn⟩ := Option.isSome_iff_exists.mp hcn
      have htes : (tagEntities client a).isSome = true := by
        simp [tagEntities, hn]
      obtain ⟨es, hte⟩ := Option.isSome_iff_exists.mp htes
      obtain ⟨ih1, r, hr, hmap, hlen⟩ := ih (i + 1) k hik2 (by omega)
        (fun j hj1 hj2 => hsome j (by omega) hj2) hnone
        (fun j b hj1 hj2 hb => hclass j b (by omega) hj2 hb)
      refine ⟨?_, (a, es) :: r, ?_, ?_, ?_⟩
      · have hnn : k - i + 1 = (k - (i + 1) + 1) + 1 := by omega
        simp only [setupLoop, ha, hte, ih1, hnn, List.range'_succ]
      · simp [setupLoop, ha, hte, hr]
      · have hnn : k - i = (k - (i + 1)) + 1 := by omega
        rw [hnn, List.range'_succ]
        simp [List.filterMap_cons, ha, hmap]
      · simp [hlen]
        omega

/-- Claim C4 (amended): on a gateway with tags at positions `1 … k - 1` and
the first vacancy at position `k ≤ 99`, where every discovered tag's product
type resolves to a feature class (its `has_neutral` lookup succeeds), the
setup loop queries exactly positions `1, …, k` in order (never beyond `k`)
and registers tag entities exactly for the `k - 1` tags at positions
`1 … k - 1`. -/
theorem c4_discovery_probes_and_registers :
    ∀ (client : SchneiderModbus) (k : Nat), 1 ≤ k → k ≤ 99 →
      (∀ i, 1 ≤ i → i < k →
        (client.modbus_address_of_node i).isSome = true) →
      client.modbus_address_of_node k = none →
      (∀ i a, 1 ≤ i → i < k → client.modbus_address_of_node i = some a →
        (has_neutral (client.tag_product_type a)).isSome = true) →
      (setupLoop client 1 99).1 = List.range' 1 k ∧
      ∃ l, (setupLoop client 1 99).2 = some l ∧
        l.map Prod.fst =
          (List.range' 1 (k - 1)).filterMap client.modbus_address_of_node ∧
        l.length = k - 1 := by
  intro client k h1 h99 hsome hnone hclass
  have h := setupLoop_discovery client 99 1 k h1 (by omega) hsome hnone hclass
  have hk : k - 1 + 1 = k := by omega
  rw [hk] at h
  exact h

/-- Claim C4 (counterexample): `accessoryClient` satisfies the original
claim's hypotheses with `k = 3` (valid addresses at positions 1 and 2, none at
position 3), yet the loop probes only position 1 — its accessory-typed tag
makes `has_neutral` raise `IndexError`, aborting the loop — and registers
nothing, instead of probing positions 1, 2, 3 and registering two tags. -/
theorem c4_discovery_counterexample :
    (accessoryClient.modbus_address_of_node 1).isSome = true ∧
    (accessoryClient.modbus_address_of_node 2).isSome = true ∧
    accessoryClient.modbus_address_of_node 3 = none ∧
    (setupLoop accessoryClient 1 99).1 = [1] ∧
    (setupLoop accessoryClient 1 99).1 ≠ List.range' 1 3 ∧
    (setupLoop accessoryClient 1 99).2 = none :=
  ⟨rfl, rfl, rfl, rfl, by decide, rfl⟩

/-- Claim C4 (witness): `oneTagClient` (one classifiable tag at position 1,
vacancy at position 2) is probed exactly at positions 1 and 2. -/
theorem c4_discovery_probes_and_registers_witness :
    (setupLoop oneTagClient 1 99).1 = List.range' 1 2 :=
  (c4_discovery_probes_and_registers oneTagClient 2 (by decide) (by decide)
    (fun i hi1 hi2 => by
      have h : i = 1 := by omega
      subst h
      rfl)
    rfl
    (fun i a hi1 hi2 ha => rfl)).1

/-- Claim C10: the discovery loop always terminates after at most 99 probes,
and every probed position lies in `1 … 99`, whatever the gateway answers. -/
theorem c10_discovery_probe_bound :
    ∀ client : SchneiderModbus,
      (setupLoop client 1 99).1.length ≤ 99 ∧
      ∀ i, i ∈ (setupLoop client 1 99).1 → 1 ≤ i ∧ i ≤ 99 := by
  intro client
  obtain ⟨hl, hm⟩ := setupLoop_probed_bounds client 99 1
  refine ⟨hl, fun i hi => ⟨(hm i hi).1, ?_⟩⟩
  have := (hm i hi).2
  omega

/-- Claim C10 (witness): position 1 is probed on the sample client that always
reports a tag, and it lies within `1 … 99`. -/
theorem c10_discovery_probe_bound_witness : 1 ≤ 1 ∧ 1 ≤ 99 :=
  (c10_discovery_probe_bound sampleClient).2 1 (by decide)
